import Mathlib

/-!
Verification of the "Secure Vault" encrypted-payment backend
(keyManager / validation / storage / database / security / server).

The JavaScript source is shallowly embedded: every definition below mirrors
a function of the source (file and function named in its doc comment).
JavaScript numbers are modelled as an inductive with NaN and infinities over
exact rationals; JavaScript values as a small inductive with `undefined`,
`null`, booleans, numbers, strings, arrays and objects.  External effects
(RSA decryption, JSON parsing, disk, randomness) enter as explicit function
parameters, so every handler is a total executable function of its inputs.
-/

/-- A JavaScript number: NaN, the two infinities, or a finite value
(idealised as an exact rational). -/
inductive JsNum where
  | nan : JsNum
  | posInf : JsNum
  | negInf : JsNum
  | fin : ℚ → JsNum
deriving DecidableEq

/-- A JavaScript value as seen by the backend handlers. -/
inductive JsVal where
  | undefv : JsVal
  | nullv : JsVal
  | boolv : Bool → JsVal
  | numv : JsNum → JsVal
  | strv : String → JsVal
  | arrv : List JsVal → JsVal
  | objv : List (String × JsVal) → JsVal

/-- JavaScript truthiness of a number: NaN and 0 are falsy. -/
def JsNum.truthy : JsNum → Bool
  | .nan => false
  | .posInf => true
  | .negInf => true
  | .fin q => decide (q ≠ 0)

/-- `Number.isFinite`. -/
def JsNum.isFinite : JsNum → Bool
  | .fin _ => true
  | _ => false

/-- `n > 0` on JavaScript numbers (NaN compares false). -/
def JsNum.isPos : JsNum → Bool
  | .fin q => decide (0 < q)
  | .posInf => true
  | _ => false

/-- JavaScript truthiness: `undefined`, `null`, `false`, `0`, `NaN` and the
empty string are falsy; objects and arrays are always truthy. -/
def JsVal.truthy : JsVal → Bool
  | .undefv => false
  | .nullv => false
  | .boolv b => b
  | .numv n => n.truthy
  | .strv s => !s.isEmpty
  | .arrv _ => true
  | .objv _ => true

/-- Property lookup on an object (`obj.k`); `undefined` when absent or when
the value is not an object. -/
def JsVal.get : JsVal → String → JsVal
  | .objv fields, k =>
      match fields.find? (fun f => f.1 = k) with
      | some f => f.2
      | none => .undefv
  | _, _ => .undefv

/-- The characters `String.prototype.trim` removes (WhiteSpace and
LineTerminator code points). -/
def isJsWhitespace (c : Char) : Bool :=
  c = ' ' || c = '\t' || c = '\n' || c = '\r' ||
  c = '\x0b' || c = '\x0c' || c = ' ' || c = '﻿' ||
  c = ' ' || (' ' ≤ c && c ≤ ' ') ||
  c = ' ' || c = ' ' || c = ' ' || c = ' ' || c = '　'

/-- `trim` on a character list. -/
def jsTrimList (cs : List Char) : List Char :=
  ((cs.dropWhile isJsWhitespace).reverse.dropWhile isJsWhitespace).reverse

/-- `String.prototype.trim`. -/
def jsTrim (s : String) : String :=
  ⟨jsTrimList s.data⟩

/-- JavaScript regular-expression line terminators (which `.` does not
match). -/
def isLineTerm (c : Char) : Bool :=
  c = '\n' || c = '\r' || c = ' ' || c = ' '

/-- Numeric value of an ASCII digit. -/
def digitVal (c : Char) : ℕ :=
  c.toNat - 48

/-! ## validation.js -/

/-- The doubling step of the Luhn loop in `isValidLuhn` (validation.js):
`digit *= 2; if (digit > 9) digit -= 9`. -/
def luhnDouble (d : ℕ) : ℕ :=
  if 2 * d > 9 then 2 * d - 9 else 2 * d

/-- The summation loop of `isValidLuhn` (validation.js), walking the digits
from the rightmost with the `isEven` flag starting `false`; the argument is
the digit list rightmost-first. -/
def luhnLoop : List ℕ → Bool → ℕ
  | [], _ => 0
  | d :: rest, dbl => (if dbl then luhnDouble d else d) + luhnLoop rest (!dbl)

/-- `cardNumber.replace(/\D+/g, '')`: keep only ASCII digits. -/
def stripNonDigits (s : String) : List Char :=
  s.data.filter Char.isDigit

/-- `isValidLuhn` (validation.js): non-strings fail; strip non-digits;
require 13–19 digits; Luhn checksum must be 0 mod 10. -/
def isValidLuhn (cardNumber : JsVal) : Bool :=
  match cardNumber with
  | .strv s =>
      let digits := stripNonDigits s
      if digits.length < 13 || digits.length > 19 then false
      else decide (luhnLoop (digits.reverse.map digitVal) false % 10 = 0)
  | _ => false

/-- Greedy digit run, returning the digits and the rest of the input. -/
def takeDigits (cs : List Char) : List Char × List Char :=
  (cs.takeWhile Char.isDigit, cs.dropWhile Char.isDigit)

/-- Value of a digit run as a natural number. -/
def digitsToNat (ds : List Char) : ℕ :=
  ds.foldl (fun a c => 10 * a + digitVal c) 0

/-- Mantissa of a JavaScript decimal literal: `digits [. digits]` or
`. digits`, returning its exact value and the remaining input. -/
def parseMantissa (cs : List Char) : Option (ℚ × List Char) :=
  let ip := takeDigits cs
  match ip.2 with
  | '.' :: rest2 =>
      let fp := takeDigits rest2
      if ip.1.isEmpty && fp.1.isEmpty then none
      else some ((digitsToNat ip.1 : ℚ) + (digitsToNat fp.1 : ℚ) / (10 : ℚ) ^ fp.1.length, fp.2)
  | _ =>
      if ip.1.isEmpty then none else some ((digitsToNat ip.1 : ℚ), ip.2)

/-- Exponent part after `e`/`E`: optional sign then digits. -/
def parseExpTail (cs : List Char) : Option (ℤ × List Char) :=
  match cs with
  | '+' :: r =>
      let d := takeDigits r
      if d.1.isEmpty then none else some ((digitsToNat d.1 : ℤ), d.2)
  | '-' :: r =>
      let d := takeDigits r
      if d.1.isEmpty then none else some (-(digitsToNat d.1 : ℤ), d.2)
  | r =>
      let d := takeDigits r
      if d.1.isEmpty then none else some ((digitsToNat d.1 : ℤ), d.2)

/-- Scale a rational by a power of ten. -/
def applyExp (q : ℚ) (e : ℤ) : ℚ :=
  if 0 ≤ e then q * (10 : ℚ) ^ e.toNat else q / (10 : ℚ) ^ (-e).toNat

/-- A complete unsigned JavaScript decimal literal (mantissa with optional
exponent, consuming the whole input). -/
def parseUnsignedDecimal (cs : List Char) : Option ℚ :=
  match parseMantissa cs with
  | none => none
  | some m =>
      match m.2 with
      | [] => some m.1
      | 'e' :: r2 =>
          match parseExpTail r2 with
          | some e => if e.2.isEmpty then some (applyExp m.1 e.1) else none
          | none => none
      | 'E' :: r2 =>
          match parseExpTail r2 with
          | some e => if e.2.isEmpty then some (applyExp m.1 e.1) else none
          | none => none
      | _ => none

/-- Hexadecimal digit value. -/
def hexVal (c : Char) : Option ℕ :=
  if '0' ≤ c && c ≤ '9' then some (c.toNat - 48)
  else if 'a' ≤ c && c ≤ 'f' then some (c.toNat - 87)
  else if 'A' ≤ c && c ≤ 'F' then some (c.toNat - 55)
  else none

/-- Digits of a non-decimal integer literal in radix `r`. -/
def parseRadixDigits (r : ℕ) (cs : List Char) : Option ℕ :=
  match cs with
  | [] => none
  | _ =>
      cs.foldl (fun acc c =>
        match acc, hexVal c with
        | some a, some v => if v < r then some (r * a + v) else none
        | _, _ => none) (some 0)

/-- `Number(string)` (`StringToNumber`): trim; empty is 0; `Infinity` with
optional sign; `0x`/`0o`/`0b` integer literals; otherwise a signed decimal
literal; anything else is NaN. -/
def jsStringToNumber (s : String) : JsNum :=
  let t := jsTrimList s.data
  match t with
  | [] => .fin 0
  | _ =>
      if t = "Infinity".data || t = "+Infinity".data then .posInf
      else if t = "-Infinity".data then .negInf
      else
        match t with
        | '0' :: 'x' :: rest =>
            match parseRadixDigits 16 rest with
            | some n => .fin n
            | none => .nan
        | '0' :: 'X' :: rest =>
            match parseRadixDigits 16 rest with
            | some n => .fin n
            | none => .nan
        | '0' :: 'o' :: rest =>
            match parseRadixDigits 8 rest with
            | some n => .fin n
            | none => .nan
        | '0' :: 'O' :: rest =>
            match parseRadixDigits 8 rest with
            | some n => .fin n
            | none => .nan
        | '0' :: 'b' :: rest =>
            match parseRadixDigits 2 rest with
            | some n => .fin n
            | none => .nan
        | '0' :: 'B' :: rest =>
            match parseRadixDigits 2 rest with
            | some n => .fin n
            | none => .nan
        | '+' :: rest =>
            match parseUnsignedDecimal rest with
            | some q => .fin q
            | none => .nan
        | '-' :: rest =>
            match parseUnsignedDecimal rest with
            | some q => .fin (-q)
            | none => .nan
        | _ =>
            match parseUnsignedDecimal t with
            | some q => .fin q
            | none => .nan

/-- `isValidAmount` (validation.js): strings are coerced with `Number`,
numbers are used as-is, any other type fails `Number.isFinite`; valid iff
finite and strictly positive. -/
def isValidAmount (amount : JsVal) : Bool :=
  match amount with
  | .strv s => (jsStringToNumber s).isFinite && (jsStringToNumber s).isPos
  | .numv n => n.isFinite && n.isPos
  | _ => false

/-- `isValidExpiry` (validation.js), with the current calendar year and
month as explicit parameters for `new Date()`: the string must match
`^(\d{2})\/(\d{2})$`, the month must be 1–12, and `20YY/MM` must not be
strictly before the current month. -/
def isValidExpiry (currentYear currentMonth : ℕ) (expiry : JsVal) : Bool :=
  match expiry with
  | .strv s =>
      match s.data with
      | [a, b, sl, c, d] =>
          if a.isDigit && b.isDigit && sl = '/' && c.isDigit && d.isDigit then
            let month := 10 * digitVal a + digitVal b
            let year := 2000 + 10 * digitVal c + digitVal d
            if month < 1 || month > 12 then false
            else if year < currentYear || (year = currentYear && month < currentMonth) then false
            else true
          else false
      | _ => false
  | _ => false

/-- `isValidCVV` (validation.js): trim, then `^\d{3,4}$`. -/
def isValidCVV (cvv : JsVal) : Bool :=
  match cvv with
  | .strv s =>
      let t := jsTrimList s.data
      (decide (t.length = 3) || decide (t.length = 4)) && t.all Char.isDigit
  | _ => false

/-- After at least one `.`-matched character between `@` and the literal
dot: succeed on a literal `.` followed by a non-line-terminator, or extend
the middle run by another non-line-terminator. -/
def matchDotAfterOne : List Char → Bool
  | [] => false
  | c :: rest =>
      (c = '.' && (match rest with
        | d :: _ => !isLineTerm d
        | [] => false))
      || (!isLineTerm c && matchDotAfterOne rest)

/-- Match `.+\..+` anchored at the start of the input. -/
def matchDotTail : List Char → Bool
  | [] => false
  | c :: rest => !isLineTerm c && matchDotAfterOne rest

/-- Unanchored test of `/.+@.+\..+/`: scan for an `@` preceded by a
non-line-terminator and followed by a match of `.+\..+`. -/
def emailScan : List Char → Bool
  | [] => false
  | [_] => false
  | c1 :: c2 :: rest =>
      (c2 = '@' && !isLineTerm c1 && matchDotTail rest) || emailScan (c2 :: rest)

/-- `isValidEmail` (validation.js): non-strings fail; trim; empty fails;
test the pattern `/.+@.+\..+/`. -/
def isValidEmail (email : JsVal) : Bool :=
  match email with
  | .strv s =>
      let t := jsTrimList s.data
      if t.isEmpty then false else emailScan t
  | _ => false

/-! ## database.js -/

/-- A row of the `transactions` table.  Schema (initializeDatabase):
`transactionId TEXT UNIQUE NOT NULL, timestamp TEXT NOT NULL,
amount REAL NOT NULL, cardholderName TEXT, cardNumber TEXT, expiry TEXT,
cvv TEXT` — the table has no email column.  Bound values are kept as the
JavaScript values the statement received. -/
structure TxnRow where
  transactionId : JsVal
  timestamp : String
  amount : JsVal
  cardholderName : JsVal
  cardNumber : JsVal
  expiry : JsVal
  cvv : JsVal

/-- The argument object of `saveTransaction` (database.js destructures
exactly these six properties; an `email` property of the caller's object is
ignored). -/
structure TxnInput where
  cardNumber : JsVal
  expiry : JsVal
  cvv : JsVal
  fullName : JsVal
  amount : JsVal
  transactionId : JsVal

/-- `x || y` on JavaScript values. -/
def jsOr (x y : JsVal) : JsVal :=
  if x.truthy then x else y

/-- The row object `saveTransaction` returns and `getAllTransactions` /
`getTransactionById` rebuild from a row: exactly seven properties, in the
source's order, with no email. -/
def rowToObj (r : TxnRow) : JsVal :=
  .objv [("transactionId", r.transactionId), ("timestamp", .strv r.timestamp),
    ("amount", r.amount), ("cardholderName", r.cardholderName),
    ("cardNumber", r.cardNumber), ("expiry", r.expiry), ("cvv", r.cvv)]

/-- Equality test against a row's stored transactionId, as the UNIQUE
constraint on the TEXT column compares the bound identifier value. -/
def idMatches (tid : JsVal) (r : TxnRow) : Bool :=
  match tid, r.transactionId with
  | .strv a, .strv b => a = b
  | _, _ => false

/-- `saveTransaction` (database.js): throws when the database is not
initialized; `finalTransactionId = transactionId || genId` with `genId` the
`TXN-…` fallback the function would generate; the INSERT violates the
UNIQUE constraint when the identifier already exists, which is rethrown as
`Transaction ID already exists`; otherwise the row (with `fullName || 'N/A'`
style defaults) is appended and returned. -/
def saveTransaction (genId : String) (now : String) (td : TxnInput)
    (db : Option (List TxnRow)) : Except String (TxnRow × List TxnRow) :=
  match db with
  | none => .error "Database not initialized. Call initializeDatabase() first."
  | some rows =>
      let finalId := jsOr td.transactionId (.strv genId)
      if rows.any (idMatches finalId) then
        .error "Transaction ID already exists"
      else
        let r : TxnRow :=
          ⟨finalId, now, td.amount, jsOr td.fullName (.strv "N/A"),
            jsOr td.cardNumber (.strv "N/A"), jsOr td.expiry (.strv "N/A"),
            jsOr td.cvv (.strv "N/A")⟩
        .ok (r, rows ++ [r])

/-- The query filters `getAllTransactions` receives (each present key was
set by the route handler from the query string). -/
structure QueryFilters where
  startDate : Option String
  endDate : Option String
  minAmount : Option JsNum
  maxAmount : Option JsNum
  limit : Option JsNum
  offset : Option JsNum

/-- A row amount compared against a numeric bound with `>=`; a NaN bound is
bound as SQL NULL, so the comparison selects nothing. -/
def amountGE (v : JsVal) (b : JsNum) : Bool :=
  match v, b with
  | .numv (.fin a), .fin q => decide (q ≤ a)
  | .strv s, .fin q =>
      match jsStringToNumber s with
      | .fin a => decide (q ≤ a)
      | _ => false
  | _, _ => false

/-- A row amount compared against a numeric bound with `<=`. -/
def amountLE (v : JsVal) (b : JsNum) : Bool :=
  match v, b with
  | .numv (.fin a), .fin q => decide (a ≤ q)
  | .strv s, .fin q =>
      match jsStringToNumber s with
      | .fin a => decide (a ≤ q)
      | _ => false
  | _, _ => false

/-- The conjunctive WHERE clause built by `getAllTransactions`. -/
def rowPassesFilters (f : QueryFilters) (r : TxnRow) : Bool :=
  (match f.startDate with
    | some d => decide (d ≤ r.timestamp)
    | none => true) &&
  (match f.endDate with
    | some d => decide (r.timestamp ≤ d)
    | none => true) &&
  (match f.minAmount with
    | some b => amountGE r.amount b
    | none => true) &&
  (match f.maxAmount with
    | some b => amountLE r.amount b
    | none => true)

/-- Insertion step for `ORDER BY timestamp DESC` (TEXT, binary collation). -/
def insertByTsDesc (r : TxnRow) : List TxnRow → List TxnRow
  | [] => [r]
  | x :: xs =>
      if decide (x.timestamp < r.timestamp) then r :: x :: xs
      else x :: insertByTsDesc r xs

/-- `ORDER BY timestamp DESC` as a stable insertion sort. -/
def sortByTsDesc : List TxnRow → List TxnRow
  | [] => []
  | x :: xs => insertByTsDesc x (sortByTsDesc xs)

/-- The OFFSET the query skips: present only when `filters.offset` is
truthy; SQLite treats a negative OFFSET as zero. -/
def paginationOffset (f : QueryFilters) : ℕ :=
  match f.offset with
  | some (.fin oq) =>
      if JsNum.truthy (.fin oq) then (if oq.floor ≤ 0 then 0 else oq.floor.toNat)
      else 0
  | _ => 0

/-- The `LIMIT ? OFFSET ?` tail: only emitted when `filters.limit` is
truthy, with the OFFSET clause only added when `filters.offset` is also
truthy; SQLite treats a negative LIMIT as unlimited. -/
def applyPagination (f : QueryFilters) (rows : List TxnRow) : List TxnRow :=
  match f.limit with
  | some l =>
      if l.truthy then
        match l with
        | .fin lq =>
            if lq < 0 then rows.drop (paginationOffset f)
            else (rows.drop (paginationOffset f)).take lq.floor.toNat
        | _ => rows
      else rows
  | none => rows

/-- `getAllTransactions` (database.js): an uninitialized store returns `[]`;
any error from the query is caught and also returns `[]` (modelled by the
`queryFails` flag); otherwise filter, order by timestamp descending,
paginate, and rebuild plain row objects. -/
def getAllTransactions (db : Option (List TxnRow)) (queryFails : Bool)
    (f : QueryFilters) : List JsVal :=
  match db with
  | none => []
  | some rows =>
      if queryFails then []
      else (applyPagination f (sortByTsDesc (rows.filter (rowPassesFilters f)))).map rowToObj

/-- `getTransactionById` (database.js): `null` when uninitialized or on a
caught error; otherwise the first row whose transactionId matches, rebuilt
as a plain object. -/
def getTransactionById (db : Option (List TxnRow)) (queryFails : Bool)
    (tid : String) : Option JsVal :=
  match db with
  | none => none
  | some rows =>
      if queryFails then none
      else (rows.find? (idMatches (.strv tid))).map rowToObj

/-- The REAL value SQLite stores for a bound amount (REAL column affinity
coerces numeric text). -/
def storedAmountRat (v : JsVal) : ℚ :=
  match v with
  | .numv (.fin q) => q
  | .strv s =>
      match jsStringToNumber s with
      | .fin q => q
      | _ => 0
  | _ => 0

/-- `getTransactionStats` (database.js): zeros when uninitialized or on a
caught error; otherwise `COUNT(*)`, `SUM(amount) || 0` and
`AVG(amount) || 0`.  The result object has exactly these three keys — the
function computes no daily breakdown. -/
def getTransactionStats (db : Option (List TxnRow)) (queryFails : Bool) : JsVal :=
  let zeros : JsVal := .objv [("totalCount", .numv (.fin 0)),
    ("totalAmount", .numv (.fin 0)), ("averageAmount", .numv (.fin 0))]
  match db with
  | none => zeros
  | some rows =>
      if queryFails then zeros
      else
        let total : ℚ := (rows.map (fun r => storedAmountRat r.amount)).sum
        let avg : ℚ := if rows.length = 0 then 0 else total / rows.length
        .objv [("totalCount", .numv (.fin rows.length)),
          ("totalAmount", .numv (.fin total)),
          ("averageAmount", .numv (.fin avg))]

/-! ## keyManager.js -/

/-- The environment and key files as `ensureKeyPair` observes them:
`PRIVATE_KEY` / `PUBLIC_KEY` variables (absent or their string value) and
the contents of the two PEM files when they exist. -/
structure KeyEnv where
  envPrivate : Option String
  envPublic : Option String
  filePrivate : Option String
  filePublic : Option String

/-- The module-level `cachedPrivateKey` / `cachedPublicKey` pair. -/
structure KeyCache where
  cachedPrivateKey : Option String
  cachedPublicKey : Option String

/-- A freshly generated RSA keypair, as produced by
`generateAndPersistKeyPair` (keyManager.js). -/
structure GenResult where
  publicKey : String
  privateKey : String

/-- Truthiness of an environment variable (unset or empty is falsy). -/
def envTruthy : Option String → Bool
  | some s => !s.isEmpty
  | none => false

/-- An inline key value (keyManager.js): raw PEM when it starts with
`-----BEGIN`, otherwise base64-decoded (`decode` stands for the
`Buffer.from(·, 'base64').toString('utf8')` chain, which never throws). -/
def envKeyValue (decode : String → String) (v : String) : String :=
  if v.startsWith "-----BEGIN" then v else decode v

/-- `ensureKeyPair` (keyManager.js).  Resolution order: both inline
environment values if truthy; else both PEM files if both exist; else
generate and persist a fresh pair (`gen`).  Returns the resulting cache and
whether generation happened. -/
def ensureKeyPair (decode : String → String) (gen : GenResult)
    (env : KeyEnv) : KeyCache × Bool :=
  if envTruthy env.envPrivate && envTruthy env.envPublic then
    (⟨some (envKeyValue decode ((env.envPrivate).getD "")),
      some (envKeyValue decode ((env.envPublic).getD ""))⟩, false)
  else
    match env.filePrivate, env.filePublic with
    | some priv, some pub => (⟨some priv, some pub⟩, false)
    | _, _ => (⟨some gen.privateKey, some gen.publicKey⟩, true)

/-- `getPublicKey` (keyManager.js), reading the startup cache. -/
def getPublicKey (k : KeyCache) : Option String :=
  k.cachedPublicKey

/-- `getPrivateKey` (keyManager.js), reading the startup cache. -/
def getPrivateKey (k : KeyCache) : Option String :=
  k.cachedPrivateKey

/-! ## security.js and server.js -/

/-- Base64 alphabet value (standard plus URL-safe variants); characters
outside the alphabet are ignored by Node's lenient decoder. -/
def b64Val (c : Char) : Option ℕ :=
  if 'A' ≤ c && c ≤ 'Z' then some (c.toNat - 65)
  else if 'a' ≤ c && c ≤ 'z' then some (c.toNat - 71)
  else if '0' ≤ c && c ≤ '9' then some (c.toNat + 4)
  else if c = '+' || c = '-' then some 62
  else if c = '/' || c = '_' then some 63
  else none

/-- Reassemble bytes from 6-bit groups, four at a time, discarding a
trailing partial byte. -/
def b64Groups : List ℕ → List ℕ
  | a :: b :: c :: d :: rest =>
      (a * 4 + b / 16) :: ((b % 16) * 16 + c / 4) :: ((c % 4) * 64 + d) :: b64Groups rest
  | [a, b] => [a * 4 + b / 16]
  | [a, b, c] => [(a * 4 + b / 16), ((b % 16) * 16 + c / 4)]
  | _ => []

/-- `Buffer.from(s, 'base64')`: a total function — invalid characters are
skipped and a truncated tail is dropped, but no input throws. -/
def jsBase64Decode (s : String) : List ℕ :=
  b64Groups (s.data.filterMap b64Val)

/-- An HTTP response: status code and JSON body. -/
structure HttpResponse where
  status : ℕ
  body : JsVal

/-- `res.status(n).json({ status: 'error', message: m })`. -/
def errResp (n : ℕ) (m : String) : HttpResponse :=
  ⟨n, .objv [("status", .strv "error"), ("message", .strv m)]⟩

/-- The server configuration read from the environment. -/
structure ApiConfig where
  sessionEnabled : Bool
  sessionHeaderName : String
  adminApiKey : Option String

/-- The per-request perimeter facts a handler can observe. -/
structure ApiRequest where
  sessionHeaderValue : Option String
  adminKeyProvided : Option String
  rateLimited : Bool

/-- `createSessionHeaderGuard` (security.js): a no-op unless enabled;
otherwise a missing (or falsy) header is rejected with 401 and a message
naming the configured header. -/
def sessionGuard (cfg : ApiConfig) (req : ApiRequest) : Option HttpResponse :=
  if !cfg.sessionEnabled then none
  else
    match req.sessionHeaderValue with
    | some v =>
        if v.isEmpty then
          some (errResp 401 ("Missing required session header: " ++ cfg.sessionHeaderName))
        else none
    | none =>
        some (errResp 401 ("Missing required session header: " ++ cfg.sessionHeaderName))

/-- `createAdminAuthGuard` (security.js): with no `ADMIN_API_KEY` configured
the guard is a warning pass-through; otherwise a missing credential is 401
and a mismatch is 403. -/
def adminAuthGuard (cfg : ApiConfig) (req : ApiRequest) : Option HttpResponse :=
  match cfg.adminApiKey with
  | none => none
  | some k =>
      if k.isEmpty then none
      else
        match req.adminKeyProvided with
        | none => some (errResp 401 "Admin access requires authentication. Provide x-admin-api-key header or apiKey query parameter.")
        | some pk =>
            if pk.isEmpty then
              some (errResp 401 "Admin access requires authentication. Provide x-admin-api-key header or apiKey query parameter.")
            else if pk ≠ k then some (errResp 403 "Invalid admin credentials.")
            else none

/-- `createPaymentRateLimiter` (security.js): when the window is exhausted,
express-rate-limit answers 429 with the configured JSON message. -/
def rateLimiterResp : HttpResponse :=
  ⟨429, .objv [("status", .strv "error"),
    ("message", .strv "Too many payment attempts, please try again later.")]⟩

/-- The destructured payload `{ cardNumber, expiry, cvv, fullName, email,
amount }` of a successfully parsed decrypted JSON body (absent properties
are `undefined`). -/
structure PaymentFields where
  cardNumber : JsVal
  expiry : JsVal
  cvv : JsVal
  fullName : JsVal
  email : JsVal
  amount : JsVal

/-- The inline fullName check of the payment route:
`!fullName || typeof fullName !== 'string' || !fullName.trim()`. -/
def fullNameInvalid (v : JsVal) : Bool :=
  !v.truthy ||
    (match v with
      | .strv s => (jsTrimList s.data).isEmpty
      | _ => true)

/-- The transaction identifier generated by the payment route:
``TXN-${Date.now()}-${randomSuffix}``. -/
def genTxnId (nowMs : ℕ) (randSuffix : String) : String :=
  "TXN-" ++ toString nowMs ++ "-" ++ randSuffix

/-- The success body of the payment route:
`{ status: 'success', transactionId }`. -/
def paymentSuccessBody (txnId : String) : JsVal :=
  .objv [("status", .strv "success"), ("transactionId", .strv txnId)]

/-- The body of `POST /api/process-payment` after the guards (server.js).
`rsaDecrypt` stands for `crypto.privateDecrypt` with the cached private key
followed by `toString('utf8')` (`none` = the decrypt threw); `jsonParse`
stands for `JSON.parse` plus the destructuring (`none` = it threw).  Both
throws land in the same catch with the same 400 body.  A storage error
(`saveFails`, or a `saveTransaction` throw such as a duplicate id or an
uninitialized store) is caught and ignored, so the success response is sent
regardless.  Returns the response and the resulting ledger. -/
def processPaymentCore (rsaDecrypt : List ℕ → Option String)
    (jsonParse : String → Option PaymentFields)
    (currentYear currentMonth : ℕ) (nowMs : ℕ) (randSuffix : String)
    (nowIso : String) (db : Option (List TxnRow)) (saveFails : Bool)
    (body : JsVal) : HttpResponse × Option (List TxnRow) :=
  match body.get "ciphertext" with
  | .strv ct =>
      if ct.isEmpty then
        (errResp 400 "Missing or invalid ciphertext in request body.", db)
      else
        match rsaDecrypt (jsBase64Decode ct) with
        | none => (errResp 400 "Failed to decrypt or validate payment payload.", db)
        | some plain =>
            match jsonParse plain with
            | none => (errResp 400 "Failed to decrypt or validate payment payload.", db)
            | some p =>
                if fullNameInvalid p.fullName then
                  (errResp 400 "Cardholder name is required.", db)
                else if !p.email.truthy || !isValidEmail p.email then
                  (errResp 400 "A valid email address is required.", db)
                else if !p.cardNumber.truthy || !isValidLuhn p.cardNumber then
                  (errResp 400 "Invalid card number.", db)
                else if !p.expiry.truthy || !isValidExpiry currentYear currentMonth p.expiry then
                  (errResp 400 "Invalid expiry date.", db)
                else if !p.cvv.truthy || !isValidCVV p.cvv then
                  (errResp 400 "Invalid CVV.", db)
                else if !isValidAmount p.amount then
                  (errResp 400 "Invalid payment amount.", db)
                else
                  let txnId := genTxnId nowMs randSuffix
                  let db2 :=
                    if saveFails then db
                    else
                      match saveTransaction txnId nowIso
                          ⟨p.cardNumber, p.expiry, p.cvv, p.fullName, p.amount, .strv txnId⟩ db with
                      | .ok res => some res.2
                      | .error _ => db
                  (⟨200, paymentSuccessBody txnId⟩, db2)
  | _ => (errResp 400 "Missing or invalid ciphertext in request body.", db)

/-- `POST /api/process-payment` (server.js) with its session guard and rate
limiter in front of the core. -/
def processPaymentHandler (cfg : ApiConfig) (req : ApiRequest)
    (rsaDecrypt : List ℕ → Option String)
    (jsonParse : String → Option PaymentFields)
    (currentYear currentMonth : ℕ) (nowMs : ℕ) (randSuffix : String)
    (nowIso : String) (db : Option (List TxnRow)) (saveFails : Bool)
    (body : JsVal) : HttpResponse × Option (List TxnRow) :=
  match sessionGuard cfg req with
  | some r => (r, db)
  | none =>
      if req.rateLimited then (rateLimiterResp, db)
      else processPaymentCore rsaDecrypt jsonParse currentYear currentMonth
        nowMs randSuffix nowIso db saveFails body

/-- `GET /api/crypto/key` (server.js): behind the session guard, serialize
`{ publicKey: getPublicKey() }`; if reading the key throws (`keyFail`), the
catch answers 500. -/
def cryptoKeyHandler (cfg : ApiConfig) (req : ApiRequest) (keys : KeyCache)
    (keyFail : Bool) : HttpResponse :=
  match sessionGuard cfg req with
  | some r => r
  | none =>
      if keyFail then errResp 500 "Unable to load public key."
      else
        ⟨200, .objv [("publicKey",
          match getPublicKey keys with
          | some pem => .strv pem
          | none => .nullv)]⟩

/-- `GET /api/transactions` (server.js): no guard; always answers
`{ status: 'success', count, transactions }` with whatever
`getAllTransactions` returned (which is `[]` on an uninitialized store or a
swallowed query error). -/
def transactionsHandler (db : Option (List TxnRow)) (queryFails : Bool)
    (f : QueryFilters) : HttpResponse :=
  let txns := getAllTransactions db queryFails f
  ⟨200, .objv [("status", .strv "success"),
    ("count", .numv (.fin txns.length)), ("transactions", .arrv txns)]⟩

/-- `GET /api/transactions/:id` (server.js): 404 when the lookup returns
null, else `{ status: 'success', transaction }`. -/
def transactionByIdHandler (db : Option (List TxnRow)) (queryFails : Bool)
    (tid : String) : HttpResponse :=
  match getTransactionById db queryFails tid with
  | none => errResp 404 "Transaction not found."
  | some t => ⟨200, .objv [("status", .strv "success"), ("transaction", t)]⟩

/-- `GET /api/admin/stats` (server.js): behind the admin guard,
`{ status: 'success', stats }`. -/
def adminStatsHandler (cfg : ApiConfig) (req : ApiRequest)
    (db : Option (List TxnRow)) (queryFails : Bool) : HttpResponse :=
  match adminAuthGuard cfg req with
  | some r => r
  | none => ⟨200, .objv [("status", .strv "success"),
      ("stats", getTransactionStats db queryFails)]⟩

/-- `GET /api/admin/transactions` (server.js): behind the admin guard, the
same body as `GET /api/transactions`. -/
def adminTransactionsHandler (cfg : ApiConfig) (req : ApiRequest)
    (db : Option (List TxnRow)) (queryFails : Bool)
    (f : QueryFilters) : HttpResponse :=
  match adminAuthGuard cfg req with
  | some r => r
  | none => transactionsHandler db queryFails f

/-! ## Auxiliary notions for the statements -/

mutual

/-- Every string serialized anywhere in a JSON body: object keys and all
string leaves. -/
def JsVal.strings : JsVal → List String
  | .undefv => []
  | .nullv => []
  | .boolv _ => []
  | .numv _ => []
  | .strv s => [s]
  | .arrv es => stringsOfList es
  | .objv fs => stringsOfFields fs

/-- Strings of a list of values. -/
def stringsOfList : List JsVal → List String
  | [] => []
  | v :: vs => v.strings ++ stringsOfList vs

/-- Strings of an object's field list. -/
def stringsOfFields : List (String × JsVal) → List String
  | [] => []
  | f :: fs => f.1 :: (f.2.strings ++ stringsOfFields fs)

end

/-- The keys of a JSON object. -/
def objKeys : JsVal → List String
  | .objv fs => fs.map Prod.fst
  | _ => []

/-- All strings a stored row can contribute to a response body. -/
def rowStrings (r : TxnRow) : List String :=
  (rowToObj r).strings

/-- Every fixed string the six route handlers and guards can place in a
response body (keys, status values and literal messages), given the
configured session header name. -/
def fixedApiStrings (cfg : ApiConfig) : List String :=
  ["status", "error", "success", "message", "publicKey", "transactionId",
    "count", "transactions", "transaction", "stats",
    "totalCount", "totalAmount", "averageAmount",
    "Missing or invalid ciphertext in request body.",
    "Failed to decrypt or validate payment payload.",
    "Cardholder name is required.",
    "A valid email address is required.",
    "Invalid card number.",
    "Invalid expiry date.",
    "Invalid CVV.",
    "Invalid payment amount.",
    "Too many payment attempts, please try again later.",
    "Unable to load public key.",
    "Transaction not found.",
    "Admin access requires authentication. Provide x-admin-api-key header or apiKey query parameter.",
    "Invalid admin credentials.",
    "Missing required session header: " ++ cfg.sessionHeaderName]

/-- The six field-specific rejection messages, in validation order. -/
def validationMessages : List String :=
  ["Cardholder name is required.", "A valid email address is required.",
    "Invalid card number.", "Invalid expiry date.", "Invalid CVV.",
    "Invalid payment amount."]

/-- The validator sequence as the spec states it (§4.3 step 4): the six
field validators in the fixed order fullName, email, cardNumber, expiry,
cvv, amount, short-circuiting on the first failure, each paired with its
distinct reported reason; `none` means every validator passed. -/
def specValidationChain (currentYear currentMonth : ℕ)
    (p : PaymentFields) : Option String :=
  if fullNameInvalid p.fullName then
    some "Cardholder name is required."
  else if !p.email.truthy || !isValidEmail p.email then
    some "A valid email address is required."
  else if !p.cardNumber.truthy || !isValidLuhn p.cardNumber then
    some "Invalid card number."
  else if !p.expiry.truthy || !isValidExpiry currentYear currentMonth p.expiry then
    some "Invalid expiry date."
  else if !p.cvv.truthy || !isValidCVV p.cvv then
    some "Invalid CVV."
  else if !isValidAmount p.amount then
    some "Invalid payment amount."
  else none

/-- The Luhn checksum as the spec words it: walking the digits from the
rightmost, every second digit is doubled (with 9 subtracted when the double
exceeds 9) and everything is summed; the argument is rightmost-first. -/
def luhnSpecSum : List ℕ → ℕ
  | [] => 0
  | [d] => d
  | d :: e :: rest => d + luhnDouble e + luhnSpecSum rest

/-! ## Theorems -/

/-- The source's Luhn loop, started on the rightmost digit with the
non-doubling flag, computes the spec's alternating sum. -/
theorem luhnLoop_eq_spec : ∀ ds : List ℕ, luhnLoop ds false = luhnSpecSum ds := by
  intro ds
  induction ds using luhnSpecSum.induct with
  | case1 => rfl
  | case2 d => simp [luhnLoop, luhnSpecSum]
  | case3 d e rest ih => simp [luhnLoop, luhnSpecSum, ih, Nat.add_assoc]

/-- Characterization of `isValidLuhn` on strings: all non-digits stripped,
13–19 digits remaining, and the spec's Luhn sum divisible by 10. -/
theorem isValidLuhn_strv_iff (s : String) :
    isValidLuhn (.strv s) = true ↔
      (13 ≤ (stripNonDigits s).length ∧ (stripNonDigits s).length ≤ 19 ∧
        luhnSpecSum ((stripNonDigits s).reverse.map digitVal) % 10 = 0) := by
  simp only [isValidLuhn]
  split
  · rename_i h
    simp only [Bool.false_eq_true, false_iff]
    rintro ⟨h1, h2, -⟩
    simp only [Bool.or_eq_true, decide_eq_true_eq] at h
    omega
  · rename_i h
    simp only [Bool.or_eq_true, decide_eq_true_eq, not_or] at h
    rw [decide_eq_true_iff, luhnLoop_eq_spec]
    constructor
    · intro hm
      exact ⟨by omega, by omega, hm⟩
    · rintro ⟨-, -, hm⟩
      exact hm

/-- C8 counterexample: the validator strips every non-digit character, not
only spaces, so a card number containing dashes — a string that still has
non-digit characters after stripping spaces, which the claim says must be
rejected — is accepted. -/
theorem C8_luhn_counterexample :
    isValidLuhn (.strv "4111-1111-1111-1111") = true := by
  decide

/-- C8 (amended): the card-number validator strips all non-digit
characters, requires the remaining digit count to lie in [13,19], and
accepts exactly when the spec's Luhn sum is 0 mod 10; the two reference
examples hold, and any string whose remaining digit count lies outside
[13,19] is rejected. -/
theorem C8_luhn_validator :
    isValidLuhn (.strv "4111111111111111") = true ∧
    isValidLuhn (.strv "4111111111111112") = false ∧
    (∀ s : String, isValidLuhn (.strv s) = true ↔
      (13 ≤ (stripNonDigits s).length ∧ (stripNonDigits s).length ≤ 19 ∧
        luhnSpecSum ((stripNonDigits s).reverse.map digitVal) % 10 = 0)) ∧
    (∀ s : String, (stripNonDigits s).length < 13 ∨ 19 < (stripNonDigits s).length →
      isValidLuhn (.strv s) = false) := by
  refine ⟨by decide, by decide, isValidLuhn_strv_iff, ?_⟩
  intro s hlen
  cases h : isValidLuhn (.strv s)
  · rfl
  · rcases (isValidLuhn_strv_iff s).mp h with ⟨h1, h2, -⟩
    omega

/-- C9: with no truthy inline key material and both PEM files present,
`ensureKeyPair` loads the files and performs no generation, so the cache —
and hence `getPublicKey()` — is identical across restarts, whatever fresh
pair the generator would have produced on each run. -/
theorem C9_idempotent_key_resolution (decode : String → String)
    (gen1 gen2 : GenResult) (env : KeyEnv) (p q : String)
    (hinline : ¬(envTruthy env.envPrivate = true ∧ envTruthy env.envPublic = true))
    (hp : env.filePrivate = some p) (hq : env.filePublic = some q) :
    ensureKeyPair decode gen1 env = (⟨some p, some q⟩, false) ∧
    (ensureKeyPair decode gen1 env).2 = false ∧
    getPublicKey (ensureKeyPair decode gen1 env).1 =
      getPublicKey (ensureKeyPair decode gen2 env).1 := by
  have hcond : (envTruthy env.envPrivate && envTruthy env.envPublic) = false := by
    cases h1 : envTruthy env.envPrivate <;> cases h2 : envTruthy env.envPublic <;>
      simp_all
  refine ⟨?_, ?_, ?_⟩ <;> simp [ensureKeyPair, hcond, hp, hq]

/-- C9 witness: a concrete environment with unset inline variables and two
concrete PEM files, across two restarts with different generators. -/
theorem C9_witness :
    ensureKeyPair id ⟨"PUB1", "PRIV1"⟩ ⟨none, none, some "privpem", some "pubpem"⟩ =
      (⟨some "privpem", some "pubpem"⟩, false) ∧
    (ensureKeyPair id ⟨"PUB1", "PRIV1"⟩ ⟨none, none, some "privpem", some "pubpem"⟩).2 = false ∧
    getPublicKey (ensureKeyPair id ⟨"PUB1", "PRIV1"⟩ ⟨none, none, some "privpem", some "pubpem"⟩).1 =
      getPublicKey (ensureKeyPair id ⟨"PUB2", "PRIV2"⟩ ⟨none, none, some "privpem", some "pubpem"⟩).1 :=
  C9_idempotent_key_resolution id ⟨"PUB1", "PRIV1"⟩ ⟨"PUB2", "PRIV2"⟩
    ⟨none, none, some "privpem", some "pubpem"⟩ "privpem" "pubpem"
    (by decide) rfl rfl

/-- Pagination of an empty row list is empty, whatever the filters say. -/
theorem applyPagination_nil (f : QueryFilters) : applyPagination f [] = [] := by
  unfold applyPagination
  rcases f.limit with - | l
  · rfl
  · rcases l with - | - | - | lq
    · rfl
    · rfl
    · rfl
    · by_cases hq : (JsNum.fin lq).truthy = true
      · simp only [hq, if_true]
        split <;> simp
      · simp [hq]

/-- C10: for every filter combination, an uninitialized store and a failing
query both make `getAllTransactions` return the empty list, and the listing
endpoint then reports success with count 0 — byte-for-byte the same
response an initialized empty ledger produces. -/
theorem C10_storage_failure_indistinguishable (f : QueryFilters)
    (rows : List TxnRow) (queryFails : Bool) :
    getAllTransactions none queryFails f = [] ∧
    getAllTransactions (some rows) true f = [] ∧
    transactionsHandler none queryFails f =
      ⟨200, .objv [("status", .strv "success"), ("count", .numv (.fin 0)),
        ("transactions", .arrv [])]⟩ ∧
    transactionsHandler none queryFails f = transactionsHandler (some []) false f ∧
    transactionsHandler (some rows) true f = transactionsHandler (some []) false f := by
  have hnil : applyPagination f (sortByTsDesc []) = [] := by
    show applyPagination f [] = []
    exact applyPagination_nil f
  refine ⟨rfl, rfl, rfl, ?_, ?_⟩ <;>
    simp [transactionsHandler, getAllTransactions, hnil]

/-- C5: forcing an already-present transactionId makes the second insert
fail with the duplicate-id error, and the ledger afterwards still holds
exactly one record for that id — the first one, not overwritten. -/
theorem C5_duplicate_transaction_id (rows : List TxnRow) (td1 td2 : TxnInput)
    (t g1 g2 n1 n2 : String)
    (h1 : td1.transactionId = .strv t) (h2 : td2.transactionId = .strv t)
    (ht : t ≠ "")
    (hfresh : rows.filter (idMatches (.strv t)) = []) :
    ∃ r1 rows1,
      saveTransaction g1 n1 td1 (some rows) = .ok (r1, rows1) ∧
      saveTransaction g2 n2 td2 (some rows1) = .error "Transaction ID already exists" ∧
      rows1.filter (idMatches (.strv t)) = [r1] := by
  have hempty : t.isEmpty = false := by
    cases e : t.isEmpty
    · rfl
    · exact absurd ((String.isEmpty_iff t).mp e) ht
  have htruthy : (JsVal.strv t).truthy = true := by
    simp [JsVal.truthy, hempty]
  have hJor1 : jsOr td1.transactionId (.strv g1) = .strv t := by
    rw [h1]; simp [jsOr, htruthy]
  have hJor2 : jsOr td2.transactionId (.strv g2) = .strv t := by
    rw [h2]; simp [jsOr, htruthy]
  have hnone : rows.any (idMatches (.strv t)) = false := by
    rw [List.any_eq_false]
    intro x hx hpx
    have hmem := List.mem_filter.mpr ⟨hx, hpx⟩
    rw [hfresh] at hmem
    exact absurd hmem (List.not_mem_nil x)
  refine ⟨⟨.strv t, n1, td1.amount, jsOr td1.fullName (.strv "N/A"),
    jsOr td1.cardNumber (.strv "N/A"), jsOr td1.expiry (.strv "N/A"),
    jsOr td1.cvv (.strv "N/A")⟩,
    rows ++ [⟨.strv t, n1, td1.amount, jsOr td1.fullName (.strv "N/A"),
      jsOr td1.cardNumber (.strv "N/A"), jsOr td1.expiry (.strv "N/A"),
      jsOr td1.cvv (.strv "N/A")⟩], ?_, ?_, ?_⟩
  · simp only [saveTransaction, hJor1, hnone]
    rfl
  · have hR : idMatches (.strv t)
        ⟨.strv t, n1, td1.amount, jsOr td1.fullName (.strv "N/A"),
          jsOr td1.cardNumber (.strv "N/A"), jsOr td1.expiry (.strv "N/A"),
          jsOr td1.cvv (.strv "N/A")⟩ = true := by
      simp [idMatches]
    simp only [saveTransaction, hJor2, List.any_append, hnone, List.any_cons,
      List.any_nil, hR]
    rfl
  · have hR : idMatches (.strv t)
        ⟨.strv t, n1, td1.amount, jsOr td1.fullName (.strv "N/A"),
          jsOr td1.cardNumber (.strv "N/A"), jsOr td1.expiry (.strv "N/A"),
          jsOr td1.cvv (.strv "N/A")⟩ = true := by
      simp [idMatches]
    simp [List.filter_append, hfresh, hR]

/-- C5 witness: a concrete forced duplicate insert on an initially empty
ledger. -/
theorem C5_witness :
    ∃ r1 rows1,
      saveTransaction "G1" "2026-01-01" ⟨.strv "4111111111111111", .strv "12/30",
        .strv "123", .strv "Jane Doe", .numv (.fin 99), .strv "TXN-X"⟩ (some []) =
        .ok (r1, rows1) ∧
      saveTransaction "G2" "2026-01-02" ⟨.strv "5555555555554444", .strv "11/31",
        .strv "456", .strv "John Roe", .numv (.fin 50), .strv "TXN-X"⟩ (some rows1) =
        .error "Transaction ID already exists" ∧
      rows1.filter (idMatches (.strv "TXN-X")) = [r1] :=
  C5_duplicate_transaction_id [] _ _ "TXN-X" "G1" "G2" "2026-01-01" "2026-01-02"
    rfl rfl (by decide) rfl

/-- C6: `getTransactionStats` builds an object with exactly the keys
totalCount, totalAmount and averageAmount — it computes no dailyStats
breakdown — and the admin stats endpoint serializes exactly that object,
so the stats object of the response carries no dailyStats array. -/
theorem C6_stats_have_no_dailyStats (cfg : ApiConfig) (req : ApiRequest)
    (db : Option (List TxnRow)) (qf : Bool)
    (hguard : adminAuthGuard cfg req = none) :
    objKeys (getTransactionStats db qf) =
      ["totalCount", "totalAmount", "averageAmount"] ∧
    (getTransactionStats db qf).get "dailyStats" = .undefv ∧
    (adminStatsHandler cfg req db qf).body =
      .objv [("status", .strv "success"), ("stats", getTransactionStats db qf)] ∧
    ((adminStatsHandler cfg req db qf).body.get "stats").get "dailyStats" = .undefv := by
  have h1 : objKeys (getTransactionStats db qf) =
      ["totalCount", "totalAmount", "averageAmount"] := by
    cases db <;> cases qf <;> rfl
  have h2 : (getTransactionStats db qf).get "dailyStats" = .undefv := by
    cases db <;> cases qf <;> rfl
  have h3 : (adminStatsHandler cfg req db qf).body =
      .objv [("status", .strv "success"), ("stats", getTransactionStats db qf)] := by
    simp [adminStatsHandler, hguard]
  refine ⟨h1, h2, h3, ?_⟩
  rw [h3]
  exact h2

/-- C6 witness: the unguarded default configuration over an initialized
empty ledger. -/
theorem C6_witness :
    objKeys (getTransactionStats (some []) false) =
      ["totalCount", "totalAmount", "averageAmount"] ∧
    (getTransactionStats (some []) false).get "dailyStats" = .undefv ∧
    (adminStatsHandler ⟨false, "x-session-id", none⟩ ⟨none, none, false⟩
        (some []) false).body =
      .objv [("status", .strv "success"), ("stats", getTransactionStats (some []) false)] ∧
    ((adminStatsHandler ⟨false, "x-session-id", none⟩ ⟨none, none, false⟩
        (some []) false).body.get "stats").get "dailyStats" = .undefv :=
  C6_stats_have_no_dailyStats ⟨false, "x-session-id", none⟩ ⟨none, none, false⟩
    (some []) false rfl

/-- C7 counterexample: a concrete successful insert whose submission
carried the email jane@example.com — `saveTransaction` destructures no
email property, the table has no email column, and both the stored record
object and the GetById result carry no email at all. -/
theorem C7_email_counterexample :
    (saveTransaction "G" "2026-01-01T00:00:00.000Z"
        ⟨.strv "4111111111111111", .strv "12/30", .strv "123", .strv "Jane Doe",
          .numv (.fin 99), .strv "TXN-1"⟩ (some [])).map
        (fun res => (rowToObj res.1).get "email") = .ok .undefv ∧
    (getTransactionById (some [⟨.strv "TXN-1", "2026-01-01T00:00:00.000Z",
        .numv (.fin 99), .strv "Jane Doe", .strv "4111111111111111",
        .strv "12/30", .strv "123"⟩]) false "TXN-1").map (fun o => o.get "email") =
      some .undefv ∧
    (getTransactionById (some [⟨.strv "TXN-1", "2026-01-01T00:00:00.000Z",
        .numv (.fin 99), .strv "Jane Doe", .strv "4111111111111111",
        .strv "12/30", .strv "123"⟩]) false "TXN-1").map objKeys =
      some ["transactionId", "timestamp", "amount", "cardholderName",
        "cardNumber", "expiry", "cvv"] :=
  ⟨rfl, rfl, rfl⟩

/-- C7 (amended): every record `saveTransaction` persists and returns, and
every record GetById returns, consists of exactly transactionId, timestamp,
amount, cardholderName, cardNumber, expiry and cvv — the payload's email is
validated and handed to the ledger but dropped, so no stored or returned
record carries an email field. -/
theorem C7_transaction_record_fields :
    (∀ g n td db r rows1,
      saveTransaction g n td db = Except.ok (r, rows1) →
        objKeys (rowToObj r) = ["transactionId", "timestamp", "amount",
          "cardholderName", "cardNumber", "expiry", "cvv"] ∧
        (rowToObj r).get "email" = .undefv) ∧
    (∀ db qf tid o, getTransactionById db qf tid = some o →
        objKeys o = ["transactionId", "timestamp", "amount",
          "cardholderName", "cardNumber", "expiry", "cvv"] ∧
        o.get "email" = .undefv) := by
  constructor
  · intro g n td db r rows1 hsave
    exact ⟨rfl, rfl⟩
  · intro db qf tid o hget
    rcases db with - | rows
    · simp [getTransactionById] at hget
    · simp only [getTransactionById] at hget
      split at hget
      · exact absurd hget (by simp)
      · rcases Option.map_eq_some'.mp hget with ⟨r, -, hro⟩
        rw [← hro]
        exact ⟨rfl, rfl⟩

/-- C7 witness: the field lists of a concretely inserted and a concretely
fetched record. -/
theorem C7_witness :
    (objKeys (rowToObj ⟨.strv "TXN-1", "T0", .numv (.fin 99), .strv "Jane Doe",
        jsOr (.strv "4111111111111111") (.strv "N/A"), .strv "12/30", .strv "123"⟩) =
      ["transactionId", "timestamp", "amount", "cardholderName", "cardNumber",
        "expiry", "cvv"] ∧
      (rowToObj ⟨.strv "TXN-1", "T0", .numv (.fin 99), .strv "Jane Doe",
        jsOr (.strv "4111111111111111") (.strv "N/A"), .strv "12/30", .strv "123"⟩).get
        "email" = .undefv) ∧
    (objKeys (rowToObj ⟨.strv "TXN-1", "T0", .numv (.fin 99), .strv "Jane Doe",
        .strv "4111111111111111", .strv "12/30", .strv "123"⟩) =
      ["transactionId", "timestamp", "amount", "cardholderName", "cardNumber",
        "expiry", "cvv"] ∧
      (rowToObj ⟨.strv "TXN-1", "T0", .numv (.fin 99), .strv "Jane Doe",
        .strv "4111111111111111", .strv "12/30", .strv "123"⟩).get "email" = .undefv) :=
  ⟨C7_transaction_record_fields.1 "G" "T0"
      ⟨.strv "4111111111111111", .strv "12/30", .strv "123", .strv "Jane Doe",
        .numv (.fin 99), .strv "TXN-1"⟩ (some []) _ _ rfl,
    C7_transaction_record_fields.2
      (some [⟨.strv "TXN-1", "T0", .numv (.fin 99), .strv "Jane Doe",
        .strv "4111111111111111", .strv "12/30", .strv "123"⟩]) false "TXN-1" _ rfl⟩

/-- Once a string ciphertext is present and decrypt and parse succeed, the
payment route is exactly the spec's ordered validator chain followed by the
success-and-best-effort-persist step. -/
theorem processPaymentCore_eq_chain (rsaDecrypt : List ℕ → Option String)
    (jsonParse : String → Option PaymentFields) (cy cm nowMs : ℕ)
    (randSuffix nowIso : String) (db : Option (List TxnRow)) (saveFails : Bool)
    (body : JsVal) (ct plain : String) (p : PaymentFields)
    (hct : body.get "ciphertext" = .strv ct) (hne : ct.isEmpty = false)
    (hdec : rsaDecrypt (jsBase64Decode ct) = some plain)
    (hparse : jsonParse plain = some p) :
    processPaymentCore rsaDecrypt jsonParse cy cm nowMs randSuffix nowIso db
        saveFails body =
      match specValidationChain cy cm p with
      | some msg => (errResp 400 msg, db)
      | none =>
          (⟨200, paymentSuccessBody (genTxnId nowMs randSuffix)⟩,
            if saveFails then db
            else
              match saveTransaction (genTxnId nowMs randSuffix) nowIso
                  ⟨p.cardNumber, p.expiry, p.cvv, p.fullName, p.amount,
                    .strv (genTxnId nowMs randSuffix)⟩ db with
              | .ok res => some res.2
              | .error _ => db) := by
  simp only [processPaymentCore, hct, hne, hdec, hparse, specValidationChain,
    Bool.false_eq_true, if_false]
  split_ifs <;> rfl

/-- C2: for a submission that decrypts, parses and passes every validator,
the response is the success body with the generated transactionId for every
ledger state and every storage outcome — a thrown `saveTransaction` (for
example an uninitialized store) and any other persistence failure are
caught and never change the caller-visible result. -/
theorem C2_storage_failure_nonfatal (rsaDecrypt : List ℕ → Option String)
    (jsonParse : String → Option PaymentFields) (cy cm nowMs : ℕ)
    (randSuffix nowIso : String) (db : Option (List TxnRow)) (saveFails : Bool)
    (body : JsVal) (ct plain : String) (p : PaymentFields)
    (hct : body.get "ciphertext" = .strv ct) (hne : ct.isEmpty = false)
    (hdec : rsaDecrypt (jsBase64Decode ct) = some plain)
    (hparse : jsonParse plain = some p)
    (hvalid : specValidationChain cy cm p = none) :
    (processPaymentCore rsaDecrypt jsonParse cy cm nowMs randSuffix nowIso db
        saveFails body).1 =
      ⟨200, paymentSuccessBody (genTxnId nowMs randSuffix)⟩ := by
  rw [processPaymentCore_eq_chain rsaDecrypt jsonParse cy cm nowMs randSuffix
    nowIso db saveFails body ct plain p hct hne hdec hparse, hvalid]

/-- C2 witness: a valid concrete payload submitted against an uninitialized
store (`saveTransaction` throws) and with the storage layer failing — the
response is still the success body. -/
theorem C2_witness :
    (processPaymentCore (fun _ => some "PLAIN")
        (fun _ => some ⟨.strv "4111111111111111", .strv "12/30", .strv "123",
          .strv "Jane Doe", .strv "jane@example.com", .numv (.fin 99)⟩)
        2026 1 5 "ABC123XYZ" "2026-01-01T00:00:00.000Z" none true
        (.objv [("ciphertext", .strv "QUJB")])).1 =
      ⟨200, paymentSuccessBody (genTxnId 5 "ABC123XYZ")⟩ :=
  C2_storage_failure_nonfatal (fun _ => some "PLAIN")
    (fun _ => some ⟨.strv "4111111111111111", .strv "12/30", .strv "123",
      .strv "Jane Doe", .strv "jane@example.com", .numv (.fin 99)⟩)
    2026 1 5 "ABC123XYZ" "2026-01-01T00:00:00.000Z" none true
    (.objv [("ciphertext", .strv "QUJB")]) "QUJB" "PLAIN"
    ⟨.strv "4111111111111111", .strv "12/30", .strv "123",
      .strv "Jane Doe", .strv "jane@example.com", .numv (.fin 99)⟩
    rfl rfl rfl rfl (by decide)

/-- C3: after decrypt and parse, the first failure of the spec's ordered
six-validator chain determines the response — a 400 with that validator's
distinct message — and the ledger is returned unchanged; the six messages
are pairwise distinct. -/
theorem C3_validation_order_and_no_insert (rsaDecrypt : List ℕ → Option String)
    (jsonParse : String → Option PaymentFields) (cy cm nowMs : ℕ)
    (randSuffix nowIso : String) (db : Option (List TxnRow)) (saveFails : Bool)
    (body : JsVal) (ct plain : String) (p : PaymentFields)
    (hct : body.get "ciphertext" = .strv ct) (hne : ct.isEmpty = false)
    (hdec : rsaDecrypt (jsBase64Decode ct) = some plain)
    (hparse : jsonParse plain = some p) :
    (∀ msg, specValidationChain cy cm p = some msg →
      msg ∈ validationMessages ∧
      processPaymentCore rsaDecrypt jsonParse cy cm nowMs randSuffix nowIso db
        saveFails body = (errResp 400 msg, db)) ∧
    validationMessages.Nodup := by
  refine ⟨?_, by decide⟩
  intro msg hmsg
  constructor
  · unfold specValidationChain at hmsg
    split_ifs at hmsg <;> simp_all [validationMessages]
  · rw [processPaymentCore_eq_chain rsaDecrypt jsonParse cy cm nowMs randSuffix
      nowIso db saveFails body ct plain p hct hne hdec hparse, hmsg]

/-- C3 witness: a concrete payload whose first failing validator is the
email check; the response is the email-specific 400 and the concrete ledger
is unchanged. -/
theorem C3_witness :
    "A valid email address is required." ∈ validationMessages ∧
    processPaymentCore (fun _ => some "PLAIN")
        (fun _ => some ⟨.strv "4111111111111111", .strv "12/30", .strv "123",
          .strv "Jane Doe", .strv "not-an-email", .numv (.fin 99)⟩)
        2026 1 5 "ABC123XYZ" "2026-01-01T00:00:00.000Z" (some []) false
        (.objv [("ciphertext", .strv "QUJB")]) =
      (errResp 400 "A valid email address is required.", some []) :=
  (C3_validation_order_and_no_insert (fun _ => some "PLAIN")
    (fun _ => some ⟨.strv "4111111111111111", .strv "12/30", .strv "123",
      .strv "Jane Doe", .strv "not-an-email", .numv (.fin 99)⟩)
    2026 1 5 "ABC123XYZ" "2026-01-01T00:00:00.000Z" (some []) false
    (.objv [("ciphertext", .strv "QUJB")]) "QUJB" "PLAIN"
    ⟨.strv "4111111111111111", .strv "12/30", .strv "123",
      .strv "Jane Doe", .strv "not-an-email", .numv (.fin 99)⟩
    rfl rfl rfl rfl).1 "A valid email address is required." (by decide)

/-- C4 counterexample: a decryption failure and a JSON parse failure — two
distinct failure causes on concrete inputs — produce byte-for-byte the same
400 response, and base64 decoding itself is a total function that never
fails, so the three distinguishable errors the claim names do not exist in
the code. -/
theorem C4_single_generic_error_counterexample :
    (processPaymentCore (fun _ => none)
        (fun _ => some ⟨.undefv, .undefv, .undefv, .undefv, .undefv, .undefv⟩)
        2026 1 5 "R" "T0" (some []) false
        (.objv [("ciphertext", .strv "!!!not*base64###")])).1 =
      errResp 400 "Failed to decrypt or validate payment payload." ∧
    (processPaymentCore (fun _ => some "this is not json")
        (fun _ => none) 2026 1 5 "R" "T0" (some []) false
        (.objv [("ciphertext", .strv "!!!not*base64###")])).1 =
      errResp 400 "Failed to decrypt or validate payment payload." ∧
    (processPaymentCore (fun _ => none)
        (fun _ => some ⟨.undefv, .undefv, .undefv, .undefv, .undefv, .undefv⟩)
        2026 1 5 "R" "T0" (some []) false
        (.objv [("ciphertext", .strv "!!!not*base64###")])).1 =
      (processPaymentCore (fun _ => some "this is not json")
        (fun _ => none) 2026 1 5 "R" "T0" (some []) false
        (.objv [("ciphertext", .strv "!!!not*base64###")])).1 :=
  ⟨rfl, rfl, rfl⟩

/-- C4 (amended): base64 decoding is lenient and never a failure point;
decryption failure and parse failure are each failure points, both reported
as 400, but through one catch-all with an identical body, so they are not
distinguishable to the caller; in both cases the ledger is unchanged. -/
theorem C4_decrypt_parse_error_handling (rsaDecrypt : List ℕ → Option String)
    (jsonParse : String → Option PaymentFields) (cy cm nowMs : ℕ)
    (randSuffix nowIso : String) (db : Option (List TxnRow)) (saveFails : Bool)
    (body : JsVal) (ct : String)
    (hct : body.get "ciphertext" = .strv ct) (hne : ct.isEmpty = false) :
    (rsaDecrypt (jsBase64Decode ct) = none →
      processPaymentCore rsaDecrypt jsonParse cy cm nowMs randSuffix nowIso db
        saveFails body =
        (errResp 400 "Failed to decrypt or validate payment payload.", db)) ∧
    (∀ plain, rsaDecrypt (jsBase64Decode ct) = some plain →
      jsonParse plain = none →
      processPaymentCore rsaDecrypt jsonParse cy cm nowMs randSuffix nowIso db
        saveFails body =
        (errResp 400 "Failed to decrypt or validate payment payload.", db)) := by
  constructor
  · intro hdec
    simp [processPaymentCore, hct, hne, hdec]
  · intro plain hdec hparse
    simp [processPaymentCore, hct, hne, hdec, hparse]

/-- C4 witness: the amended behaviour at the concrete inputs of the
counterexample. -/
theorem C4_witness :
    processPaymentCore (fun _ => none)
        (fun _ => some ⟨.undefv, .undefv, .undefv, .undefv, .undefv, .undefv⟩)
        2026 1 5 "R" "T0" (some []) false
        (.objv [("ciphertext", .strv "QUJB")]) =
      (errResp 400 "Failed to decrypt or validate payment payload.", some []) ∧
    processPaymentCore (fun _ => some "this is not json") (fun _ => none)
        2026 1 5 "R" "T0" (some []) false
        (.objv [("ciphertext", .strv "QUJB")]) =
      (errResp 400 "Failed to decrypt or validate payment payload.", some []) :=
  ⟨(C4_decrypt_parse_error_handling (fun _ => none)
      (fun _ => some ⟨.undefv, .undefv, .undefv, .undefv, .undefv, .undefv⟩)
      2026 1 5 "R" "T0" (some []) false
      (.objv [("ciphertext", .strv "QUJB")]) "QUJB" rfl rfl).1 rfl,
    (C4_decrypt_parse_error_handling (fun _ => some "this is not json")
      (fun _ => none) 2026 1 5 "R" "T0" (some []) false
      (.objv [("ciphertext", .strv "QUJB")]) "QUJB" rfl rfl).2
      "this is not json" rfl rfl⟩

/-- The strings of an error response: the two fixed keys, the status value
and the message. -/
theorem strings_errResp (n : ℕ) (m : String) :
    (errResp n m).body.strings = ["status", "error", "message", m] := rfl

/-- The stats object serializes only its three key names — its values are
numbers. -/
theorem strings_getTransactionStats (db : Option (List TxnRow)) (qf : Bool) :
    (getTransactionStats db qf).strings =
      ["totalCount", "totalAmount", "averageAmount"] := by
  cases db <;> cases qf <;> rfl

/-- Insertion for the timestamp sort introduces no new rows. -/
theorem mem_insertByTsDesc {a r : TxnRow} {l : List TxnRow}
    (h : a ∈ insertByTsDesc r l) : a = r ∨ a ∈ l := by
  induction l with
  | nil => simpa [insertByTsDesc] using h
  | cons x xs ih =>
      unfold insertByTsDesc at h
      split at h
      · simpa using h
      · rcases List.mem_cons.mp h with h1 | h2
        · exact Or.inr (by simp [h1])
        · rcases ih h2 with h3 | h4
          · exact Or.inl h3
          · exact Or.inr (List.mem_cons_of_mem x h4)

/-- The timestamp sort permutes; membership is preserved. -/
theorem mem_sortByTsDesc {a : TxnRow} :
    ∀ {l : List TxnRow}, a ∈ sortByTsDesc l → a ∈ l := by
  intro l
  induction l with
  | nil => simp [sortByTsDesc]
  | cons x xs ih =>
      intro h
      rcases mem_insertByTsDesc h with h1 | h2
      · simp [h1]
      · exact List.mem_cons_of_mem x (ih h2)

/-- Pagination only drops rows. -/
theorem mem_applyPagination {a : TxnRow} {f : QueryFilters} {l : List TxnRow}
    (h : a ∈ applyPagination f l) : a ∈ l := by
  unfold applyPagination at h
  split at h
  · split at h
    · split at h
      · split at h
        · exact List.drop_subset _ _ h
        · exact List.drop_subset _ _ (List.take_subset _ _ h)
      · exact h
    · exact h
  · exact h

/-- A string serialized from a value list comes from one of the values. -/
theorem mem_stringsOfList {s : String} :
    ∀ {vs : List JsVal}, s ∈ stringsOfList vs → ∃ v ∈ vs, s ∈ v.strings := by
  intro vs
  induction vs with
  | nil => simp [stringsOfList]
  | cons v rest ih =>
      intro h
      simp only [stringsOfList] at h
      rcases List.mem_append.mp h with h1 | h2
      · exact ⟨v, by simp, h1⟩
      · rcases ih h2 with ⟨w, hw, hsw⟩
        exact ⟨w, by simp [hw], hsw⟩

/-- Every object GetById returns is the rebuilt image of a stored row. -/
theorem getTransactionById_eq_some {db : Option (List TxnRow)} {qf : Bool}
    {tid : String} {o : JsVal} (h : getTransactionById db qf tid = some o) :
    ∃ rows r, db = some rows ∧ r ∈ rows ∧ o = rowToObj r := by
  rcases db with - | rows
  · simp [getTransactionById] at h
  · simp only [getTransactionById] at h
    split at h
    · simp at h
    · rcases Option.map_eq_some'.mp h with ⟨r, hfind, hro⟩
      exact ⟨rows, r, rfl, List.mem_of_find?_eq_some hfind, hro.symm⟩

/-- Every object the listing query returns is the rebuilt image of a
stored row. -/
theorem getAllTransactions_mem {db : Option (List TxnRow)} {qf : Bool}
    {f : QueryFilters} {v : JsVal} (h : v ∈ getAllTransactions db qf f) :
    ∃ rows r, db = some rows ∧ r ∈ rows ∧ v = rowToObj r := by
  rcases db with - | rows
  · simp [getAllTransactions] at h
  · simp only [getAllTransactions] at h
    split at h
    · simp at h
    · rcases List.mem_map.mp h with ⟨r, hr, hro⟩
      refine ⟨rows, r, rfl, ?_, hro.symm⟩
      exact List.filter_subset' _ (mem_sortByTsDesc (mem_applyPagination hr))

/-- The session guard either passes or answers the fixed 401 naming the
configured header. -/
theorem sessionGuard_cases (cfg : ApiConfig) (req : ApiRequest) :
    sessionGuard cfg req = none ∨
    sessionGuard cfg req =
      some (errResp 401 ("Missing required session header: " ++ cfg.sessionHeaderName)) := by
  unfold sessionGuard
  split
  · exact Or.inl rfl
  · split
    · split
      · exact Or.inr rfl
      · exact Or.inl rfl
    · exact Or.inr rfl

/-- The admin guard either passes or answers one of its two fixed
rejections. -/
theorem adminAuthGuard_cases (cfg : ApiConfig) (req : ApiRequest) :
    adminAuthGuard cfg req = none ∨
    adminAuthGuard cfg req =
      some (errResp 401 "Admin access requires authentication. Provide x-admin-api-key header or apiKey query parameter.") ∨
    adminAuthGuard cfg req = some (errResp 403 "Invalid admin credentials.") := by
  unfold adminAuthGuard
  split
  · exact Or.inl rfl
  · split
    · exact Or.inl rfl
    · split
      · exact Or.inr (Or.inl rfl)
      · split
        · exact Or.inr (Or.inl rfl)
        · split
          · exact Or.inr (Or.inr rfl)
          · exact Or.inl rfl

/-- Every response of the payment core is one of the eight fixed 400 bodies
or the success body carrying the generated transaction id. -/
theorem processPaymentCore_fst_cases (rsaDecrypt : List ℕ → Option String)
    (jsonParse : String → Option PaymentFields) (cy cm nowMs : ℕ)
    (randSuffix nowIso : String) (db : Option (List TxnRow)) (saveFails : Bool)
    (body : JsVal) :
    (processPaymentCore rsaDecrypt jsonParse cy cm nowMs randSuffix nowIso db
        saveFails body).1 ∈
      ([errResp 400 "Missing or invalid ciphertext in request body.",
        errResp 400 "Failed to decrypt or validate payment payload.",
        errResp 400 "Cardholder name is required.",
        errResp 400 "A valid email address is required.",
        errResp 400 "Invalid card number.",
        errResp 400 "Invalid expiry date.",
        errResp 400 "Invalid CVV.",
        errResp 400 "Invalid payment amount.",
        ⟨200, paymentSuccessBody (genTxnId nowMs randSuffix)⟩] : List HttpResponse) := by
  unfold processPaymentCore
  split
  · split
    · simp
    · split
      · simp
      · split
        · simp
        · split_ifs <;> simp
  · simp

/-- C1: across the handshake, submission, transaction-query and admin-stats
handlers, the cached private key never occurs among the strings serialized
into any response body — of the keypair only `getPublicKey()`'s value is
ever serialized — and a submission response with status 200 consists solely
of the status string and the generated transactionId.  The hypotheses
record that the private key is a fresh secret: not one of the fixed API
strings, not the public key, not the generated transaction id, and not
occurring in the stored rows (which hold only client-submitted data). -/
theorem C1_private_key_never_in_responses
    (cfg : ApiConfig) (req : ApiRequest) (keys : KeyCache) (priv : String)
    (rsaDecrypt : List ℕ → Option String)
    (jsonParse : String → Option PaymentFields)
    (cy cm nowMs : ℕ) (randSuffix nowIso : String)
    (db : Option (List TxnRow)) (saveFails keyFail queryFails : Bool)
    (body : JsVal) (f : QueryFilters) (tid : String)
    (hpriv : getPrivateKey keys = some priv)
    (hfix : priv ∉ fixedApiStrings cfg)
    (hpub : ∀ pem, getPublicKey keys = some pem → priv ≠ pem)
    (htxn : priv ≠ genTxnId nowMs randSuffix)
    (hdb : ∀ rows, db = some rows → ∀ r ∈ rows, priv ∉ rowStrings r) :
    priv ∉ (cryptoKeyHandler cfg req keys keyFail).body.strings ∧
    priv ∉ (processPaymentHandler cfg req rsaDecrypt jsonParse cy cm nowMs
      randSuffix nowIso db saveFails body).1.body.strings ∧
    priv ∉ (transactionsHandler db queryFails f).body.strings ∧
    priv ∉ (transactionByIdHandler db queryFails tid).body.strings ∧
    priv ∉ (adminStatsHandler cfg req db queryFails).body.strings ∧
    priv ∉ (adminTransactionsHandler cfg req db queryFails f).body.strings ∧
    ((processPaymentHandler cfg req rsaDecrypt jsonParse cy cm nowMs
        randSuffix nowIso db saveFails body).1.status = 200 →
      (processPaymentHandler cfg req rsaDecrypt jsonParse cy cm nowMs
        randSuffix nowIso db saveFails body).1.body =
        paymentSuccessBody (genTxnId nowMs randSuffix)) := by
  have herr : ∀ (n : ℕ) (m : String), m ∈ fixedApiStrings cfg →
      priv ∉ (errResp n m).body.strings := by
    intro n m hm hmem
    rw [strings_errResp] at hmem
    simp only [List.mem_cons, List.not_mem_nil, or_false] at hmem
    rcases hmem with h | h | h | h
    · exact hfix (by rw [h]; simp [fixedApiStrings])
    · exact hfix (by rw [h]; simp [fixedApiStrings])
    · exact hfix (by rw [h]; simp [fixedApiStrings])
    · exact hfix (h ▸ hm)
  have hdbstr : ∀ v : JsVal,
      (∃ rows r, db = some rows ∧ r ∈ rows ∧ v = rowToObj r) →
      priv ∉ v.strings := by
    rintro v ⟨rows, r, hdbeq, hrm, rfl⟩
    exact hdb rows hdbeq r hrm
  have hkey : priv ∉ (cryptoKeyHandler cfg req keys keyFail).body.strings := by
    rcases sessionGuard_cases cfg req with hg | hg
    · by_cases hkf : keyFail = true
      · have hred : cryptoKeyHandler cfg req keys keyFail =
            errResp 500 "Unable to load public key." := by
          simp [cryptoKeyHandler, hg, hkf]
        rw [hred]
        exact herr 500 _ (by simp [fixedApiStrings])
      · rw [Bool.not_eq_true] at hkf
        rcases hk : getPublicKey keys with - | pem
        · have hred : cryptoKeyHandler cfg req keys keyFail =
              ⟨200, .objv [("publicKey", .nullv)]⟩ := by
            simp [cryptoKeyHandler, hg, hkf, hk]
          rw [hred]
          intro hmem
          simp only [JsVal.strings, stringsOfFields, stringsOfList,
            List.append_nil, List.cons_append, List.nil_append, List.singleton_append,
      List.mem_cons, List.not_mem_nil, or_false, false_or] at hmem
          exact hfix (by rw [hmem]; simp [fixedApiStrings])
        · have hred : cryptoKeyHandler cfg req keys keyFail =
              ⟨200, .objv [("publicKey", .strv pem)]⟩ := by
            simp [cryptoKeyHandler, hg, hkf, hk]
          rw [hred]
          intro hmem
          simp only [JsVal.strings, stringsOfFields, stringsOfList,
            List.append_nil, List.cons_append, List.nil_append, List.singleton_append,
      List.mem_cons, List.not_mem_nil, or_false, false_or] at hmem
          rcases hmem with h | h
          · exact hfix (by rw [h]; simp [fixedApiStrings])
          · exact hpub pem hk h
    · have hred : cryptoKeyHandler cfg req keys keyFail =
          errResp 401 ("Missing required session header: " ++ cfg.sessionHeaderName) := by
        simp [cryptoKeyHandler, hg]
      rw [hred]
      exact herr 401 _ (by simp [fixedApiStrings])
  have hsuccessStrings : priv ∉
      (HttpResponse.mk 200 (paymentSuccessBody (genTxnId nowMs randSuffix))).body.strings := by
    intro hmem
    simp only [paymentSuccessBody, JsVal.strings, stringsOfFields, stringsOfList,
      List.append_nil, List.cons_append, List.nil_append, List.singleton_append,
      List.mem_cons, List.not_mem_nil, or_false, false_or] at hmem
    rcases hmem with h | h | h | h
    · exact hfix (by rw [h]; simp [fixedApiStrings])
    · exact hfix (by rw [h]; simp [fixedApiStrings])
    · exact hfix (by rw [h]; simp [fixedApiStrings])
    · exact htxn h
  have hpay : priv ∉ (processPaymentHandler cfg req rsaDecrypt jsonParse cy cm
      nowMs randSuffix nowIso db saveFails body).1.body.strings := by
    rcases sessionGuard_cases cfg req with hg | hg
    · by_cases hrl : req.rateLimited = true
      · have hred : (processPaymentHandler cfg req rsaDecrypt jsonParse cy cm
            nowMs randSuffix nowIso db saveFails body).1 = rateLimiterResp := by
          simp [processPaymentHandler, hg, hrl]
        rw [hred]
        exact herr 429 "Too many payment attempts, please try again later."
          (by simp [fixedApiStrings])
      · rw [Bool.not_eq_true] at hrl
        have hred : (processPaymentHandler cfg req rsaDecrypt jsonParse cy cm
            nowMs randSuffix nowIso db saveFails body).1 =
            (processPaymentCore rsaDecrypt jsonParse cy cm nowMs randSuffix
              nowIso db saveFails body).1 := by
          simp [processPaymentHandler, hg, hrl]
        rw [hred]
        have hcase := processPaymentCore_fst_cases rsaDecrypt jsonParse cy cm
          nowMs randSuffix nowIso db saveFails body
        simp only [List.mem_cons, List.not_mem_nil, or_false] at hcase
        rcases hcase with h | h | h | h | h | h | h | h | h <;> rw [h]
        · exact herr 400 _ (by simp [fixedApiStrings])
        · exact herr 400 _ (by simp [fixedApiStrings])
        · exact herr 400 _ (by simp [fixedApiStrings])
        · exact herr 400 _ (by simp [fixedApiStrings])
        · exact herr 400 _ (by simp [fixedApiStrings])
        · exact herr 400 _ (by simp [fixedApiStrings])
        · exact herr 400 _ (by simp [fixedApiStrings])
        · exact herr 400 _ (by simp [fixedApiStrings])
        · exact hsuccessStrings
    · have hred : (processPaymentHandler cfg req rsaDecrypt jsonParse cy cm
          nowMs randSuffix nowIso db saveFails body).1 =
          errResp 401 ("Missing required session header: " ++ cfg.sessionHeaderName) := by
        simp [processPaymentHandler, hg]
      rw [hred]
      exact herr 401 _ (by simp [fixedApiStrings])
  have htx : priv ∉ (transactionsHandler db queryFails f).body.strings := by
    intro hmem
    simp only [transactionsHandler, JsVal.strings, stringsOfFields, stringsOfList,
      List.append_nil, List.cons_append, List.nil_append, List.singleton_append,
      List.mem_cons, List.mem_append, List.not_mem_nil, or_false, false_or] at hmem
    rcases hmem with h | h | h | h | h
    · exact hfix (by rw [h]; simp [fixedApiStrings])
    · exact hfix (by rw [h]; simp [fixedApiStrings])
    · exact hfix (by rw [h]; simp [fixedApiStrings])
    · exact hfix (by rw [h]; simp [fixedApiStrings])
    · rcases mem_stringsOfList h with ⟨v, hv, hs⟩
      exact hdbstr v (getAllTransactions_mem hv) hs
  have hbyid : priv ∉ (transactionByIdHandler db queryFails tid).body.strings := by
    rcases hby : getTransactionById db queryFails tid with - | o
    · have hred : transactionByIdHandler db queryFails tid =
          errResp 404 "Transaction not found." := by
        simp [transactionByIdHandler, hby]
      rw [hred]
      exact herr 404 _ (by simp [fixedApiStrings])
    · have hred : transactionByIdHandler db queryFails tid =
          ⟨200, .objv [("status", .strv "success"), ("transaction", o)]⟩ := by
        simp [transactionByIdHandler, hby]
      rw [hred]
      intro hmem
      simp only [JsVal.strings, stringsOfFields, stringsOfList, List.append_nil,
        List.mem_cons, List.mem_append, List.not_mem_nil, or_false] at hmem
      rcases hmem with h | h | h | h
      · exact hfix (by rw [h]; simp [fixedApiStrings])
      · exact hfix (by rw [h]; simp [fixedApiStrings])
      · exact hfix (by rw [h]; simp [fixedApiStrings])
      · exact hdbstr o (getTransactionById_eq_some hby) h
  have hstats : priv ∉ (adminStatsHandler cfg req db queryFails).body.strings := by
    rcases adminAuthGuard_cases cfg req with hg | hg | hg
    · have hred : adminStatsHandler cfg req db queryFails =
          ⟨200, .objv [("status", .strv "success"),
            ("stats", getTransactionStats db queryFails)]⟩ := by
        simp [adminStatsHandler, hg]
      rw [hred]
      intro hmem
      simp only [JsVal.strings, stringsOfFields, stringsOfList, List.append_nil,
        List.mem_cons, List.mem_append, List.not_mem_nil, or_false, false_or,
        List.cons_append, List.nil_append, List.singleton_append,
        strings_getTransactionStats] at hmem
      rcases hmem with h | h | h | h | h | h <;>
        exact hfix (by rw [h]; simp [fixedApiStrings])
    · have hred : adminStatsHandler cfg req db queryFails =
          errResp 401 "Admin access requires authentication. Provide x-admin-api-key header or apiKey query parameter." := by
        simp [adminStatsHandler, hg]
      rw [hred]
      exact herr 401 _ (by simp [fixedApiStrings])
    · have hred : adminStatsHandler cfg req db queryFails =
          errResp 403 "Invalid admin credentials." := by
        simp [adminStatsHandler, hg]
      rw [hred]
      exact herr 403 _ (by simp [fixedApiStrings])
  have hatx : priv ∉ (adminTransactionsHandler cfg req db queryFails f).body.strings := by
    rcases adminAuthGuard_cases cfg req with hg | hg | hg
    · have hred : adminTransactionsHandler cfg req db queryFails f =
          transactionsHandler db queryFails f := by
        simp [adminTransactionsHandler, hg]
      rw [hred]
      exact htx
    · have hred : adminTransactionsHandler cfg req db queryFails f =
          errResp 401 "Admin access requires authentication. Provide x-admin-api-key header or apiKey query parameter." := by
        simp [adminTransactionsHandler, hg]
      rw [hred]
      exact herr 401 _ (by simp [fixedApiStrings])
    · have hred : adminTransactionsHandler cfg req db queryFails f =
          errResp 403 "Invalid admin credentials." := by
        simp [adminTransactionsHandler, hg]
      rw [hred]
      exact herr 403 _ (by simp [fixedApiStrings])
  have h200 : (processPaymentHandler cfg req rsaDecrypt jsonParse cy cm nowMs
      randSuffix nowIso db saveFails body).1.status = 200 →
      (processPaymentHandler cfg req rsaDecrypt jsonParse cy cm nowMs
        randSuffix nowIso db saveFails body).1.body =
        paymentSuccessBody (genTxnId nowMs randSuffix) := by
    rcases sessionGuard_cases cfg req with hg | hg
    · by_cases hrl : req.rateLimited = true
      · have hred : (processPaymentHandler cfg req rsaDecrypt jsonParse cy cm
            nowMs randSuffix nowIso db saveFails body).1 = rateLimiterResp := by
          simp [processPaymentHandler, hg, hrl]
        rw [hred]
        intro hh
        exact absurd hh (by decide)
      · rw [Bool.not_eq_true] at hrl
        have hred : (processPaymentHandler cfg req rsaDecrypt jsonParse cy cm
            nowMs randSuffix nowIso db saveFails body).1 =
            (processPaymentCore rsaDecrypt jsonParse cy cm nowMs randSuffix
              nowIso db saveFails body).1 := by
          simp [processPaymentHandler, hg, hrl]
        rw [hred]
        have hcase := processPaymentCore_fst_cases rsaDecrypt jsonParse cy cm
          nowMs randSuffix nowIso db saveFails body
        simp only [List.mem_cons, List.not_mem_nil, or_false] at hcase
        rcases hcase with h | h | h | h | h | h | h | h | h <;> rw [h]
        · intro hh; exact absurd hh (by decide)
        · intro hh; exact absurd hh (by decide)
        · intro hh; exact absurd hh (by decide)
        · intro hh; exact absurd hh (by decide)
        · intro hh; exact absurd hh (by decide)
        · intro hh; exact absurd hh (by decide)
        · intro hh; exact absurd hh (by decide)
        · intro hh; exact absurd hh (by decide)
        · intro hh; rfl
    · have hred : (processPaymentHandler cfg req rsaDecrypt jsonParse cy cm
          nowMs randSuffix nowIso db saveFails body).1 =
          errResp 401 ("Missing required session header: " ++ cfg.sessionHeaderName) := by
        simp [processPaymentHandler, hg]
      rw [hred]
      intro hh
      exact absurd hh (by simp [errResp])
  exact ⟨hkey, hpay, htx, hbyid, hstats, hatx, h200⟩

/-- C1 witness: a concrete configuration, request, keypair and ledger; the
private key string appears in no response body of any of the six handlers,
and the status-200 implication holds for the concrete submission. -/
theorem C1_witness :
    "SECRETPRIVATEKEY" ∉
      (cryptoKeyHandler ⟨false, "x-session-id", none⟩ ⟨none, none, false⟩
        ⟨some "SECRETPRIVATEKEY", some "PUBPEM"⟩ false).body.strings ∧
    "SECRETPRIVATEKEY" ∉
      (processPaymentHandler ⟨false, "x-session-id", none⟩ ⟨none, none, false⟩
        (fun _ => none) (fun _ => none) 2026 1 5 "R" "T" (some []) false
        .undefv).1.body.strings ∧
    "SECRETPRIVATEKEY" ∉
      (transactionsHandler (some []) false ⟨none, none, none, none, none, none⟩).body.strings ∧
    "SECRETPRIVATEKEY" ∉
      (transactionByIdHandler (some []) false "T1").body.strings ∧
    "SECRETPRIVATEKEY" ∉
      (adminStatsHandler ⟨false, "x-session-id", none⟩ ⟨none, none, false⟩
        (some []) false).body.strings ∧
    "SECRETPRIVATEKEY" ∉
      (adminTransactionsHandler ⟨false, "x-session-id", none⟩ ⟨none, none, false⟩
        (some []) false ⟨none, none, none, none, none, none⟩).body.strings ∧
    ((processPaymentHandler ⟨false, "x-session-id", none⟩ ⟨none, none, false⟩
        (fun _ => none) (fun _ => none) 2026 1 5 "R" "T" (some []) false
        .undefv).1.status = 200 →
      (processPaymentHandler ⟨false, "x-session-id", none⟩ ⟨none, none, false⟩
        (fun _ => none) (fun _ => none) 2026 1 5 "R" "T" (some []) false
        .undefv).1.body = paymentSuccessBody (genTxnId 5 "R")) :=
  C1_private_key_never_in_responses ⟨false, "x-session-id", none⟩
    ⟨none, none, false⟩ ⟨some "SECRETPRIVATEKEY", some "PUBPEM"⟩
    "SECRETPRIVATEKEY" (fun _ => none) (fun _ => none) 2026 1 5 "R" "T"
    (some []) false false false .undefv ⟨none, none, none, none, none, none⟩ "T1"
    rfl (by decide)
    (by intro pem h; injection h with h2; rw [← h2]; decide)
    (by decide)
    (by
      intro rows h r hr hmem
      injection h with h2
      subst h2
      exact absurd hr (List.not_mem_nil r))
